import Mathlib

/-!
Shallow embedding of `src/server04.py`, the selector-based non-blocking TCP
server. The embedding models:

* `handle` — the protocol callback (recv up to 1024 bytes, close-sentinel
  check, uppercase echo), with the outcomes of the `recv` and `send` system
  calls supplied as parameters;
* `on_read_ready` / `on_accept_ready` / the `run_server` event loop — as a
  step function on an explicit loop state, recording the externally
  observable actions (callback invocations, register/unregister, socket
  closes, the final server-error log line) in a ghost trace;
* the registration table — the `selectors.DefaultSelector` used by the
  program, whose register/unregister error contract comes from the Python
  standard library `selectors` module (the spec's Registration Table /
  Multiplexer contract).
-/

namespace Server04

/-- A file descriptor, identified by its OS-level integer value. -/
abbrev Fd := Nat

/-- A byte string (Python `bytes`) as a list of byte values. -/
abbrev Bytes := List Nat

/-- A peer address, the `(host, port)` pair returned by `accept` /
`getpeername`. -/
structure Addr where
  host : String
  port : Nat
deriving DecidableEq, Repr

/-- The chunk size of the single `sock.recv(1024)` call in `handle`
(`server04.py` line 64). -/
def recvChunkSize : Nat := 1024

/-- Python `bytes.upper` on a single byte: ASCII lowercase letters are
mapped to uppercase, every other byte is unchanged. -/
def byteUpper (b : Nat) : Nat :=
  if 97 ≤ b ∧ b ≤ 122 then b - 32 else b

/-- Python `bytes.upper` on a whole chunk. -/
def bytesUpper (data : Bytes) : Bytes :=
  data.map byteUpper

/-- The close sentinel `b"close"` compared against in `handle`
(`server04.py` line 76). -/
def closeBytes : Bytes := [99, 108, 111, 115, 101]

/-- The bytes of `b"hello"`. -/
def helloBytes : Bytes := [104, 101, 108, 108, 111]

/-- The outcome of the `sock.recv(1024)` call inside `handle`:
it returned a chunk (possibly empty, for an orderly shutdown), it raised
`ConnectionError`, or it raised some other exception (e.g. a
`BlockingIOError` on a spurious wake, which is *not* a subclass of
`ConnectionError`). -/
inductive RecvOutcome where
  | ok (data : Bytes)
  | connError
  | otherError
deriving DecidableEq, Repr

/-- The outcome of the `sock.send(data)` call inside `handle`, when it is
reached: success, `ConnectionError`, or some other exception. -/
inductive SendOutcome where
  | ok
  | connError
  | otherError
deriving DecidableEq, Repr

/-- What a call to `handle` does from the caller's point of view: it
returns a boolean (with the reply it managed to send, if any), or an
exception escapes it (only `ConnectionError` is caught inside `handle`). -/
inductive HandleResult where
  | ret (keepOpen : Bool) (sent : Option Bytes)
  | raised
deriving DecidableEq, Repr

/-- `handle(sock, addr)` from `server04.py` lines 55–89, with the two
system-call outcomes as parameters:

* `recv` raising `ConnectionError` returns `False`;
* an empty chunk (peer shutdown) returns `False`;
* a chunk equal to `b"close"` returns `False` without sending;
* otherwise the chunk is uppercased and sent back; a `ConnectionError`
  from `send` returns `False`, success returns `True`;
* any other exception from `recv` or `send` is not caught and escapes. -/
def handle (r : RecvOutcome) (s : SendOutcome) : HandleResult :=
  match r with
  | .connError => .ret false none
  | .otherError => .raised
  | .ok data =>
    if data = [] then .ret false none
    else if data = closeBytes then .ret false none
    else
      match s with
      | .connError => .ret false none
      | .otherError => .raised
      | .ok => .ret true (some (bytesUpper data))

/-- The externally observable actions of the server, in the order they are
performed. `recvCall` and `recvd` record the `recv` inside `handle`;
`closeListener` and `logServerError` record the teardown performed by the
`with` statement and the outer `except Exception` clause of `run_server`. -/
inductive Action where
  | registerFd (fd : Fd)
  | onConnect (fd : Fd) (addr : Addr)
  | recvCall (fd : Fd) (n : Nat)
  | recvd (fd : Fd) (data : Bytes)
  | sent (fd : Fd) (data : Bytes)
  | onDisconnect (fd : Fd) (addr : Addr)
  | unregisterFd (fd : Fd)
  | closeFd (fd : Fd)
  | closeListener
  | logServerError
deriving DecidableEq, Repr

/-- The trace of actions a single call to `handle` performs, in order: the
`recv(1024)` call, the receipt of the chunk when `recv` returns, and the
reply when the `send` succeeds. -/
def handleActs (fd : Fd) (r : RecvOutcome) (s : SendOutcome) : List Action :=
  .recvCall fd recvChunkSize ::
  match r with
  | .ok data =>
    if data = [] ∨ data = closeBytes then [.recvd fd data]
    else
      match s with
      | .ok => [.recvd fd data, .sent fd (bytesUpper data)]
      | _ => [.recvd fd data]
  | _ => []

/-- The `on_read` argument of `run_server` as the repository exercises it:
either a falsy value (`None`), or the `handle` function. -/
inductive OnReadCB where
  | noneCB
  | handleCB
deriving DecidableEq, Repr

/-- The evaluation of `not on_read or not on_read(sock, addr)` inside
`on_read_ready`: when `on_read` is falsy the callback is never invoked (so
nothing is received), otherwise `handle` runs with the given system-call
outcomes. -/
def callOnRead (cb : OnReadCB) (fd : Fd) (r : RecvOutcome) (s : SendOutcome) :
    HandleResult × List Action :=
  match cb with
  | .noneCB => (.ret false none, [])
  | .handleCB => (handle r s, handleActs fd r s)

/-- The callback configuration passed to `run_server`. The `__main__` block
passes `on_connect`, `handle` and `on_disconnect`. -/
structure Config where
  onReadCB : OnReadCB
  hasOnConnect : Bool
  hasOnDisconnect : Bool
deriving DecidableEq, Repr

/-- The configuration of the `__main__` entry point:
`run_server(HOST, PORT, on_connect, handle, on_disconnect)`. -/
def mainConfig : Config := ⟨.handleCB, true, true⟩

/-- The state of the `run_server` event loop: the registration table for
client descriptors (the listener's own registration is implicit — it exists
exactly while the loop runs), whether the `while True` loop is still
running, whether the listening socket has been closed, and the ghost trace
of observable actions. -/
structure LoopState where
  registered : List (Fd × Addr)
  running : Bool
  listenerClosed : Bool
  trace : List Action
deriving DecidableEq, Repr

/-- Look up the peer address of a registered descriptor (the
`sock.getpeername()` of `on_read_ready`, together with the selector's
key lookup). -/
def lookupFd : List (Fd × Addr) → Fd → Option Addr
  | [], _ => none
  | (g, a) :: t, fd => if g = fd then some a else lookupFd t fd

/-- `sel.unregister(sock)`: remove a descriptor's entry from the table. -/
def removeFd (l : List (Fd × Addr)) (fd : Fd) : List (Fd × Addr) :=
  l.filter (fun p => p.1 ≠ fd)

/-- The events the operating system can deliver to one iteration of the
loop: a successful `accept` of a fresh descriptor, an `accept` call that
raises (a spurious wake raising `BlockingIOError`, or any other failure —
`on_accept_ready` wraps none of its calls in a handler), a readiness event
on a client descriptor with the outcomes of the `recv`/`send` calls, or a
failure of `sel.select()` itself. -/
inductive Ev where
  | accept (fd : Fd) (addr : Addr)
  | acceptRaises
  | read (fd : Fd) (r : RecvOutcome) (s : SendOutcome)
  | selectRaises
deriving DecidableEq, Repr

/-- The teardown that happens when an exception propagates out of the
`while True` body: the `with socket.socket(...)` statement closes the
listening socket, then the `except Exception` clause prints
`Server error: ...`, and `run_server` returns. Client sockets that were
still registered are not closed by this path. -/
def crash (st : LoopState) (acts : List Action) : LoopState :=
  { st with running := false, listenerClosed := true,
            trace := st.trace ++ acts ++ [.closeListener, .logServerError] }

/-- One dispatch step of the `run_server` loop (`server04.py` lines
103–134): the selector returned one ready key and the loop invoked its
callback. `accept` events dispatch `on_accept_ready`; `read` events on a
registered descriptor dispatch `on_read_ready`; any exception escaping a
callback (or `sel.select()` itself) lands in the outer `except Exception`
and stops the loop. A `read` event on a descriptor that is not registered
cannot be produced by `sel.select()` and is a no-op. -/
def step (cfg : Config) (st : LoopState) (e : Ev) : LoopState :=
  if st.running = false then st
  else
    match e with
    | .selectRaises => crash st []
    | .acceptRaises => crash st []
    | .accept fd addr =>
      if (lookupFd st.registered fd).isSome then
        -- sel.register raises KeyError on a duplicate; nothing catches it
        crash st []
      else
        { st with registered := (fd, addr) :: st.registered,
                  trace := st.trace ++ [.registerFd fd] ++
                    (if cfg.hasOnConnect then [.onConnect fd addr] else []) }
    | .read fd r s =>
      match lookupFd st.registered fd with
      | none => st
      | some addr =>
        match callOnRead cfg.onReadCB fd r s with
        | (.raised, acts) => crash st acts
        | (.ret true _, acts) => { st with trace := st.trace ++ acts }
        | (.ret false _, acts) =>
          { st with registered := removeFd st.registered fd,
                    trace := st.trace ++ acts ++
                      (if cfg.hasOnDisconnect then [.onDisconnect fd addr] else []) ++
                      [.unregisterFd fd, .closeFd fd] }

/-- Run the loop over a list of delivered events. -/
def run (cfg : Config) (st : LoopState) : List Ev → LoopState
  | [] => st
  | e :: es => run cfg (step cfg st e) es

/-- The loop state right after `run_server` registered the listening socket
and entered `while True`. -/
def initState : LoopState := ⟨[], true, false, []⟩

/-- The `__main__` server run over a list of delivered events. -/
def runMain (evs : List Ev) : LoopState := run mainConfig initState evs

/-- The exit status of the process started by the `__main__` block.
`run_server` wraps its entire body in `except Exception`, which catches
every loop failure and returns normally, and the `__main__` block does
nothing after the call, so the interpreter exits with status 0 no matter
which events the loop saw. -/
def mainExitStatus (evs : List Ev) : Nat :=
  let _ := runMain evs
  0

/-- The errors of the registration contract: registering an
already-registered descriptor and unregistering an absent one. In the
program these are the `KeyError` exceptions documented for
`selectors.BaseSelector.register` and `unregister`. -/
inductive SelError where
  | duplicateRegistration
  | notRegistered
deriving DecidableEq, Repr

/-- The two dispatch handlers ever stored in the table:
`on_accept_ready` for the listener and `on_read_ready` for clients. -/
inductive HandlerTag where
  | acceptH
  | connH
deriving DecidableEq, Repr

/-- Modelled from the spec: the Registration Table / Multiplexer contract
(spec §4.1–4.2). The program realizes it with `selectors.DefaultSelector`,
whose code is the Python standard library, not part of `src/`: `register`
raises `KeyError` when the descriptor is already registered and
`unregister` raises `KeyError` when it is not registered, matching the
spec's DuplicateRegistration / NotRegistered errors. -/
structure Sel where
  table : List (Fd × HandlerTag)
deriving DecidableEq, Repr

/-- Whether a descriptor is currently registered in the table. -/
def Sel.hasFd (s : Sel) (fd : Fd) : Bool :=
  s.table.any (fun p => p.1 == fd)

/-- `sel.register(sock, mask, handler)`: fails with
`duplicateRegistration` when the descriptor is already present, otherwise
adds the entry. -/
def Sel.registerFd (s : Sel) (fd : Fd) (h : HandlerTag) : Except SelError Sel :=
  if s.hasFd fd then .error .duplicateRegistration
  else .ok ⟨(fd, h) :: s.table⟩

/-- `sel.unregister(sock)`: fails with `notRegistered` when the descriptor
is absent, otherwise removes its entry. -/
def Sel.unregisterFd (s : Sel) (fd : Fd) : Except SelError Sel :=
  if s.hasFd fd then .ok ⟨s.table.filter (fun p => p.1 != fd)⟩
  else .error .notRegistered

/-- The descriptors registered in a table, in order. -/
def Sel.keys (s : Sel) : List Fd :=
  s.table.map Prod.fst

/-- The number of actions in a trace satisfying a predicate. -/
def countAct (p : Action → Bool) (tr : List Action) : Nat :=
  (tr.filter p).length

/-- Whether an action registers the given descriptor. -/
def isRegisterOf (fd : Fd) : Action → Bool
  | .registerFd g => g == fd
  | _ => false

/-- Whether an action closes the given client descriptor. -/
def isCloseOf (fd : Fd) : Action → Bool
  | .closeFd g => g == fd
  | _ => false

/-- Whether an action is an `on_disconnect` invocation for the given
descriptor. -/
def isDisconnectOf (fd : Fd) : Action → Bool
  | .onDisconnect g _ => g == fd
  | _ => false

/-- The number of successful-`accept` events for a given descriptor value
in a list of delivered events. -/
def countAcceptEv (fd : Fd) : List Ev → Nat
  | [] => 0
  | .accept g _ :: es => (if g = fd then 1 else 0) + countAcceptEv fd es
  | _ :: es => countAcceptEv fd es

theorem countAct_append (p : Action → Bool) (l m : List Action) :
    countAct p (l ++ m) = countAct p l + countAct p m := by
  simp [countAct, List.filter_append]

theorem lookupFd_removeFd_self (l : List (Fd × Addr)) (fd : Fd) :
    lookupFd (removeFd l fd) fd = none := by
  induction l with
  | nil => rfl
  | cons p t ih =>
    by_cases hp : p.1 = fd
    · simp [removeFd, List.filter, hp] at ih ⊢
      exact ih
    · simp [removeFd, List.filter, hp] at ih ⊢
      simp [lookupFd, hp, ih]

theorem lookupFd_removeFd_ne (l : List (Fd × Addr)) (fd g : Fd) (hne : g ≠ fd) :
    lookupFd (removeFd l fd) g = lookupFd l g := by
  induction l with
  | nil => rfl
  | cons p t ih =>
    by_cases hp : p.1 = fd
    · have hpg : p.1 ≠ g := by rw [hp]; exact fun h => hne h.symm
      simp [removeFd, List.filter, hp] at ih ⊢
      simp [lookupFd, hpg, ih]
    · simp [removeFd, List.filter, hp] at ih ⊢
      by_cases hpg : p.1 = g
      · simp [lookupFd, hpg]
      · simp [lookupFd, hpg, ih]

theorem handleActs_mem (g : Fd) (r : RecvOutcome) (s : SendOutcome)
    (a : Action) (ha : a ∈ handleActs g r s) :
    (∃ n, a = .recvCall g n) ∨ (∃ d, a = .recvd g d) ∨ (∃ d, a = .sent g d) := by
  cases r with
  | connError => simp [handleActs] at ha; exact .inl ⟨recvChunkSize, ha⟩
  | otherError => simp [handleActs] at ha; exact .inl ⟨recvChunkSize, ha⟩
  | ok data =>
    by_cases hd : data = [] ∨ data = closeBytes
    · simp [handleActs, hd] at ha
      rcases ha with h | h
      · exact .inl ⟨recvChunkSize, h⟩
      · exact .inr (.inl ⟨data, h⟩)
    · cases s with
      | ok =>
        simp [handleActs, hd] at ha
        rcases ha with h | h | h
        · exact .inl ⟨recvChunkSize, h⟩
        · exact .inr (.inl ⟨data, h⟩)
        · exact .inr (.inr ⟨bytesUpper data, h⟩)
      | connError =>
        simp [handleActs, hd] at ha
        rcases ha with h | h
        · exact .inl ⟨recvChunkSize, h⟩
        · exact .inr (.inl ⟨data, h⟩)
      | otherError =>
        simp [handleActs, hd] at ha
        rcases ha with h | h
        · exact .inl ⟨recvChunkSize, h⟩
        · exact .inr (.inl ⟨data, h⟩)

theorem countAct_eq_zero (p : Action → Bool) (l : List Action)
    (h : ∀ a ∈ l, p a = false) : countAct p l = 0 := by
  simp [countAct, List.length_eq_zero, List.filter_eq_nil_iff]
  intro a ha
  simp [h a ha]

theorem countAct_handleActs_register (fd g : Fd) (r : RecvOutcome) (s : SendOutcome) :
    countAct (isRegisterOf fd) (handleActs g r s) = 0 := by
  refine countAct_eq_zero _ _ (fun a ha => ?_)
  rcases handleActs_mem g r s a ha with ⟨n, rfl⟩ | ⟨d, rfl⟩ | ⟨d, rfl⟩ <;> rfl

theorem countAct_handleActs_close (fd g : Fd) (r : RecvOutcome) (s : SendOutcome) :
    countAct (isCloseOf fd) (handleActs g r s) = 0 := by
  refine countAct_eq_zero _ _ (fun a ha => ?_)
  rcases handleActs_mem g r s a ha with ⟨n, rfl⟩ | ⟨d, rfl⟩ | ⟨d, rfl⟩ <;> rfl

theorem countAct_handleActs_disconnect (fd g : Fd) (r : RecvOutcome) (s : SendOutcome) :
    countAct (isDisconnectOf fd) (handleActs g r s) = 0 := by
  refine countAct_eq_zero _ _ (fun a ha => ?_)
  rcases handleActs_mem g r s a ha with ⟨n, rfl⟩ | ⟨d, rfl⟩ | ⟨d, rfl⟩ <;> rfl

/-- Claim C10: the close sentinel in `handle` is an exact whole-chunk
comparison. For a non-empty received chunk with a non-raising `send`,
`handle` returns `False` without sending anything exactly when the chunk
equals `b"close"`; every other such chunk is uppercased, sent back, and
`handle` returns `True`. -/
theorem handle_close_sentinel_exact (fd : Fd) (data : Bytes) (h : data ≠ []) :
    (handle (.ok data) .ok = .ret false none ↔ data = closeBytes) ∧
    (data = closeBytes →
      handleActs fd (.ok data) .ok = [.recvCall fd recvChunkSize, .recvd fd data]) ∧
    (data ≠ closeBytes →
      handle (.ok data) .ok = .ret true (some (bytesUpper data)) ∧
      handleActs fd (.ok data) .ok =
        [.recvCall fd recvChunkSize, .recvd fd data, .sent fd (bytesUpper data)]) := by
  by_cases hc : data = closeBytes
  · subst hc
    refine ⟨?_, fun _ => ?_, fun hne => absurd rfl hne⟩
    · simp [handle, closeBytes]
    · simp [handleActs]
  · refine ⟨?_, fun hh => absurd hh hc, fun _ => ⟨?_, ?_⟩⟩
    · simp [handle, h, hc]
    · simp [handle, h, hc]
    · simp [handleActs, h, hc]

/-- Witness for C10 at the concrete chunks `b"close\n"` (kept open,
uppercased and echoed) and `b"close"` (closed without a reply). -/
theorem handle_close_sentinel_exact_witness :
    handle (.ok [99, 108, 111, 115, 101, 10]) .ok =
      .ret true (some (bytesUpper [99, 108, 111, 115, 101, 10])) ∧
    handle (.ok closeBytes) .ok = .ret false none :=
  ⟨((handle_close_sentinel_exact 4 [99, 108, 111, 115, 101, 10]
      (by decide)).2.2 (by decide)).1,
   (handle_close_sentinel_exact 4 closeBytes (by decide)).1.mpr rfl⟩

/-- Claim C2: in the concrete session where a client connects and sends
`b"hello"`, `on_connect` fires with the peer address, `handle` receives
`b"hello"` and the reply sent back is `b"HELLO"`; after the client then
sends `b"close"`, `on_disconnect` fires and the registration table no
longer contains the descriptor. -/
theorem hello_close_session :
    (Action.onConnect 4 ⟨"127.0.0.1", 51000⟩ ∈
      (runMain [.accept 4 ⟨"127.0.0.1", 51000⟩, .read 4 (.ok helloBytes) .ok,
                .read 4 (.ok closeBytes) .ok]).trace) ∧
    (Action.recvd 4 helloBytes ∈
      (runMain [.accept 4 ⟨"127.0.0.1", 51000⟩, .read 4 (.ok helloBytes) .ok,
                .read 4 (.ok closeBytes) .ok]).trace) ∧
    (Action.sent 4 [72, 69, 76, 76, 79] ∈
      (runMain [.accept 4 ⟨"127.0.0.1", 51000⟩, .read 4 (.ok helloBytes) .ok,
                .read 4 (.ok closeBytes) .ok]).trace) ∧
    (Action.onDisconnect 4 ⟨"127.0.0.1", 51000⟩ ∈
      (runMain [.accept 4 ⟨"127.0.0.1", 51000⟩, .read 4 (.ok helloBytes) .ok,
                .read 4 (.ok closeBytes) .ok]).trace) ∧
    lookupFd (runMain [.accept 4 ⟨"127.0.0.1", 51000⟩, .read 4 (.ok helloBytes) .ok,
                .read 4 (.ok closeBytes) .ok]).registered 4 = none := by
  decide

/-- Claim C1: dispatching a readiness event on a registered client
descriptor performs one `recv(1024)` (the head of `handleActs`); `handle`
returns `False` exactly when the read raised `ConnectionError`, returned
zero bytes, returned the close sentinel, or the `send` of the reply raised
`ConnectionError` — and in that case the dispatch appends the disconnect
actions `on_disconnect`, `unregister`, `close`, in exactly that order, and
removes the descriptor from the table; when `handle` returns `True` the
descriptor stays registered and the state is otherwise unchanged. -/
theorem on_read_ready_dispatch (st : LoopState) (fd : Fd) (addr : Addr)
    (r : RecvOutcome) (s : SendOutcome)
    (hrun : st.running = true) (haddr : lookupFd st.registered fd = some addr) :
    (handleActs fd r s).head? = some (.recvCall fd recvChunkSize) ∧
    (∀ sd, handle r s = .ret false sd → sd = none ∧
      step mainConfig st (.read fd r s) =
        { st with registered := removeFd st.registered fd,
                  trace := st.trace ++ handleActs fd r s ++
                    [.onDisconnect fd addr, .unregisterFd fd, .closeFd fd] }) ∧
    (∀ sd, handle r s = .ret true sd →
      step mainConfig st (.read fd r s) = { st with trace := st.trace ++ handleActs fd r s }) ∧
    ((∃ sd, handle r s = .ret false sd) ↔
      r = .connError ∨ r = .ok [] ∨ r = .ok closeBytes ∨
      (s = .connError ∧ ∃ d, r = .ok d ∧ d ≠ [] ∧ d ≠ closeBytes)) := by
  refine ⟨rfl, ?_, ?_, ?_⟩
  · intro sd hres
    have hsd : sd = none := by
      cases r with
      | connError => simp [handle] at hres; exact hres.symm
      | otherError => simp [handle] at hres
      | ok data =>
        by_cases h1 : data = []
        · simp [handle, h1] at hres; exact hres.symm
        · by_cases h2 : data = closeBytes
          · simp [handle, h1, h2] at hres; exact hres.symm
          · cases s with
            | ok => simp [handle, h1, h2] at hres
            | connError => simp [handle, h1, h2] at hres; exact hres.symm
            | otherError => simp [handle, h1, h2] at hres
    refine ⟨hsd, ?_⟩
    simp only [step, hrun, Bool.true_eq_false, if_false, haddr, callOnRead, mainConfig, hres]
    simp [List.append_assoc]
  · intro sd hres
    simp only [step, hrun, Bool.true_eq_false, if_false, haddr, callOnRead, mainConfig, hres]
  · constructor
    · rintro ⟨sd, hres⟩
      cases r with
      | connError => exact .inl rfl
      | otherError => simp [handle] at hres
      | ok data =>
        by_cases h1 : data = []
        · exact .inr (.inl (by rw [h1]))
        · by_cases h2 : data = closeBytes
          · exact .inr (.inr (.inl (by rw [h2])))
          · cases s with
            | ok => simp [handle, h1, h2] at hres
            | connError => exact .inr (.inr (.inr ⟨rfl, data, rfl, h1, h2⟩))
            | otherError => simp [handle, h1, h2] at hres
    · rintro (rfl | rfl | rfl | ⟨rfl, d, rfl, h1, h2⟩)
      · exact ⟨none, rfl⟩
      · exact ⟨none, by simp [handle]⟩
      · exact ⟨none, by simp [handle, closeBytes]⟩
      · exact ⟨none, by simp [handle, h1, h2]⟩

/-- Witness for C1: a registered descriptor 4 receiving the close sentinel
takes the disconnect path with the actions in order. -/
theorem on_read_ready_dispatch_witness :
    step mainConfig ⟨[(4, ⟨"peer", 50001⟩)], true, false, []⟩
        (.read 4 (.ok closeBytes) .ok) =
      ⟨[], true, false,
       [.recvCall 4 recvChunkSize, .recvd 4 closeBytes,
        .onDisconnect 4 ⟨"peer", 50001⟩, .unregisterFd 4, .closeFd 4]⟩ :=
  (((on_read_ready_dispatch ⟨[(4, ⟨"peer", 50001⟩)], true, false, []⟩ 4
      ⟨"peer", 50001⟩ (.ok closeBytes) .ok rfl (by decide)).2.1 none
      (by decide)).2).trans (by decide)

/-- Claim C9: when the `on_read` argument of `run_server` is falsy, the
short-circuit `not on_read or not on_read(sock, addr)` takes the
disconnect branch without ever invoking the callback, so the first
readiness event on a registered client invokes `on_disconnect` (when
supplied), unregisters the descriptor and closes it, and the appended
trace contains no `recv` action at all. -/
theorem on_read_ready_none_callback (hc hd : Bool) (st : LoopState)
    (fd : Fd) (addr : Addr) (r : RecvOutcome) (s : SendOutcome)
    (hrun : st.running = true) (haddr : lookupFd st.registered fd = some addr) :
    step ⟨.noneCB, hc, hd⟩ st (.read fd r s) =
      { st with registered := removeFd st.registered fd,
                trace := st.trace ++
                  (if hd then [.onDisconnect fd addr] else []) ++
                  [.unregisterFd fd, .closeFd fd] } := by
  simp only [step, hrun, Bool.true_eq_false, if_false, haddr, callOnRead]
  simp [List.append_assoc]

/-- Witness for C9: with `on_read = None` and `on_disconnect` supplied, a
readiness event on registered descriptor 7 closes it immediately and no
data is read. -/
theorem on_read_ready_none_callback_witness :
    step ⟨.noneCB, true, true⟩ ⟨[(7, ⟨"peer", 50002⟩)], true, false, []⟩
        (.read 7 (.ok helloBytes) .ok) =
      ⟨[], true, false,
       [.onDisconnect 7 ⟨"peer", 50002⟩, .unregisterFd 7, .closeFd 7]⟩ :=
  (on_read_ready_none_callback true true ⟨[(7, ⟨"peer", 50002⟩)], true, false, []⟩
      7 ⟨"peer", 50002⟩ (.ok helloBytes) .ok rfl (by decide)).trans (by decide)

/-- Claim C6: a `ConnectionError` raised while sending the reply inside
`handle` does not escape: `handle` returns `False` with no reply — the
same result as a `ConnectionError` raised by the read — and the loop,
still running, takes the ordinary disconnect path for that connection. -/
theorem send_failure_disconnects (data : Bytes) (h1 : data ≠ []) (h2 : data ≠ closeBytes)
    (st : LoopState) (fd : Fd) (addr : Addr)
    (hrun : st.running = true) (haddr : lookupFd st.registered fd = some addr) :
    handle (.ok data) .connError = .ret false none ∧
    handle (.ok data) .connError = handle .connError .ok ∧
    step mainConfig st (.read fd (.ok data) .connError) =
      { st with registered := removeFd st.registered fd,
                trace := st.trace ++ handleActs fd (.ok data) .connError ++
                  [.onDisconnect fd addr, .unregisterFd fd, .closeFd fd] } ∧
    (step mainConfig st (.read fd (.ok data) .connError)).running = true := by
  have hh : handle (.ok data) .connError = .ret false none := by
    simp [handle, h1, h2]
  have hstep : step mainConfig st (.read fd (.ok data) .connError) =
      { st with registered := removeFd st.registered fd,
                trace := st.trace ++ handleActs fd (.ok data) .connError ++
                  [.onDisconnect fd addr, .unregisterFd fd, .closeFd fd] } := by
    simp only [step, hrun, Bool.true_eq_false, if_false, haddr, callOnRead, mainConfig, hh]
    simp [List.append_assoc]
  exact ⟨hh, by simp [handle, h1, h2], hstep, by rw [hstep]; exact hrun⟩

/-- Witness for C6: descriptor 4 receives `b"hello"` but the send of the
reply raises `ConnectionError`; the connection is disconnected and the
loop keeps running. -/
theorem send_failure_disconnects_witness :
    step mainConfig ⟨[(4, ⟨"peer", 50003⟩)], true, false, []⟩
        (.read 4 (.ok helloBytes) .connError) =
      ⟨[], true, false,
       [.recvCall 4 recvChunkSize, .recvd 4 helloBytes,
        .onDisconnect 4 ⟨"peer", 50003⟩, .unregisterFd 4, .closeFd 4]⟩ :=
  ((send_failure_disconnects helloBytes (by decide) (by decide)
      ⟨[(4, ⟨"peer", 50003⟩)], true, false, []⟩ 4 ⟨"peer", 50003⟩ rfl
      (by decide)).2.2.1).trans (by decide)

theorem Sel.hasFd_iff (s : Sel) (fd : Fd) : s.hasFd fd = true ↔ fd ∈ s.keys := by
  simp [Sel.hasFd, Sel.keys, List.any_eq_true, List.mem_map]

/-- Claim C5: registering a descriptor that is already present fails with
the duplicate-registration error, unregistering an absent descriptor fails
with the not-registered error, and both operations preserve the invariant
that the table's key list has no duplicate descriptor. -/
theorem sel_registration_contract (s : Sel) (fd : Fd) (h : HandlerTag) :
    (s.hasFd fd = true → s.registerFd fd h = .error .duplicateRegistration) ∧
    (s.hasFd fd = false → s.unregisterFd fd = .error .notRegistered) ∧
    (s.keys.Nodup → ∀ t : Sel,
      s.registerFd fd h = .ok t ∨ s.unregisterFd fd = .ok t → t.keys.Nodup) := by
  refine ⟨fun hf => by simp [Sel.registerFd, hf], fun hf => by simp [Sel.unregisterFd, hf], ?_⟩
  intro hnd t ht
  by_cases hf : s.hasFd fd
  · rcases ht with ht | ht
    · simp [Sel.registerFd, hf] at ht
    · simp [Sel.unregisterFd, hf] at ht
      rw [← ht]
      exact hnd.sublist ((List.filter_sublist s.table).map Prod.fst)
  · rcases ht with ht | ht
    · simp [Sel.registerFd, hf] at ht
      rw [← ht]
      refine List.Nodup.cons ?_ hnd
      intro hmem
      exact hf ((Sel.hasFd_iff s fd).mpr hmem)
    · simp [Sel.unregisterFd, hf] at ht

/-- Witness for C5: duplicate registration of descriptor 1 fails, removing
the absent descriptor 2 fails, and a successful registration keeps the key
list duplicate-free. -/
theorem sel_registration_contract_witness :
    Sel.registerFd ⟨[(1, .acceptH)]⟩ 1 .connH = .error .duplicateRegistration ∧
    Sel.unregisterFd ⟨[(1, .acceptH)]⟩ 2 = .error .notRegistered ∧
    List.Nodup (Sel.keys ⟨[(2, .connH), (1, .acceptH)]⟩) :=
  ⟨(sel_registration_contract ⟨[(1, .acceptH)]⟩ 1 .connH).1 (by decide),
   (sel_registration_contract ⟨[(1, .acceptH)]⟩ 2 .connH).2.1 (by decide),
   (sel_registration_contract ⟨[(1, .acceptH)]⟩ 2 .connH).2.2 (by decide)
     ⟨[(2, .connH), (1, .acceptH)]⟩ (.inl rfl)⟩

/-- Counterexample to claim C3 as stated: after one failed `accept` — a
spurious wake included, since `on_accept_ready` has no exception handling
— the loop is stopped, the listening socket is closed and the error is
logged by the outer handler, and a subsequent pending connection is never
accepted; the loop does not continue accepting. -/
theorem accept_failure_stops_loop_cex :
    (runMain [.acceptRaises]).running = false ∧
    (runMain [.acceptRaises]).listenerClosed = true ∧
    (runMain [.acceptRaises]).trace = [.closeListener, .logServerError] ∧
    runMain [.acceptRaises, .accept 4 ⟨"peer", 50004⟩] = runMain [.acceptRaises] ∧
    Action.registerFd 4 ∉ (runMain [.acceptRaises, .accept 4 ⟨"peer", 50004⟩]).trace := by
  decide

/-- Claim C3 as amended: any failure of the `accept` call propagates out of
the Accept Handler into `run_server`'s outer `except` clause: the client
registrations are not altered, but the listening socket is closed, the
error is logged, and the loop terminates instead of continuing to accept
connections; the process itself does not crash. -/
theorem accept_failure_crashes_loop (st : LoopState) (hrun : st.running = true) :
    step mainConfig st .acceptRaises =
      { st with running := false, listenerClosed := true,
                trace := st.trace ++ [.closeListener, .logServerError] } ∧
    (step mainConfig st .acceptRaises).registered = st.registered ∧
    (∀ evs, mainExitStatus evs = 0) := by
  refine ⟨?_, ?_, fun _ => rfl⟩ <;>
    simp [step, hrun, crash]

/-- Witness for amended C3: a failed accept in the initial state stops the
loop, closes the listener, logs, and leaves the (empty) registrations
untouched. -/
theorem accept_failure_crashes_loop_witness :
    step mainConfig initState .acceptRaises =
      ⟨[], false, true, [.closeListener, .logServerError]⟩ ∧
    mainExitStatus [.acceptRaises] = 0 :=
  ⟨((accept_failure_crashes_loop initState rfl).1).trans (by decide),
   (accept_failure_crashes_loop initState rfl).2.2 [.acceptRaises]⟩

/-- Counterexample to claim C7 as stated: with clients 4 and 5 registered,
an exception during the dispatch of client 4's readiness event (here the
`recv` raising an exception that is not a `ConnectionError`, which `handle`
does not catch) terminates the loop; client 5, although its registration
is untouched, is never served afterwards — whereas the same event delivered
to a healthy loop echoes its message. -/
theorem other_connection_not_served_cex :
    (run mainConfig ⟨[(5, ⟨"p5", 5⟩), (4, ⟨"p4", 4⟩)], true, false, []⟩
        [.read 4 .otherError .ok, .read 5 (.ok helloBytes) .ok]).running = false ∧
    lookupFd (run mainConfig ⟨[(5, ⟨"p5", 5⟩), (4, ⟨"p4", 4⟩)], true, false, []⟩
        [.read 4 .otherError .ok, .read 5 (.ok helloBytes) .ok]).registered 5 =
      some ⟨"p5", 5⟩ ∧
    Action.recvd 5 helloBytes ∉
      (run mainConfig ⟨[(5, ⟨"p5", 5⟩), (4, ⟨"p4", 4⟩)], true, false, []⟩
        [.read 4 .otherError .ok, .read 5 (.ok helloBytes) .ok]).trace ∧
    (run mainConfig ⟨[(5, ⟨"p5", 5⟩)], true, false, []⟩
        [.read 5 (.ok helloBytes) .ok]).trace =
      [.recvCall 5 recvChunkSize, .recvd 5 helloBytes, .sent 5 [72, 69, 76, 76, 79]] := by
  decide

/-- Claim C7 as amended: a failure on one connection that `handle` itself
absorbs — a `ConnectionError` from its `recv` or `send`, an orderly
shutdown, or any other outcome in which `handle` returns rather than
raises — leaves every other connection's registration unchanged and the
loop running; but an exception that escapes the dispatched callback
terminates the loop for all connections. -/
theorem connection_failure_isolation (st : LoopState) (fd g : Fd) (a : Addr)
    (r : RecvOutcome) (s : SendOutcome)
    (hrun : st.running = true) (hne : g ≠ fd)
    (hg : lookupFd st.registered g = some a)
    (hnr : handle r s ≠ .raised) :
    (step mainConfig st (.read fd r s)).running = true ∧
    lookupFd (step mainConfig st (.read fd r s)).registered g = some a := by
  rcases hfd : lookupFd st.registered fd with _ | addr
  · have : step mainConfig st (.read fd r s) = st := by
      simp [step, hrun, hfd]
    rw [this]
    exact ⟨hrun, hg⟩
  · cases hres : handle r s with
    | raised => exact absurd hres hnr
    | ret keep sd =>
      cases keep with
      | true =>
        have heq : step mainConfig st (.read fd r s) =
            { st with trace := st.trace ++ handleActs fd r s } := by
          simp only [step, hrun, Bool.true_eq_false, if_false, hfd, callOnRead, mainConfig, hres]
        rw [heq]
        exact ⟨hrun, hg⟩
      | false =>
        have heq : step mainConfig st (.read fd r s) =
            { st with registered := removeFd st.registered fd,
                      trace := st.trace ++ handleActs fd r s ++
                        [.onDisconnect fd addr] ++ [.unregisterFd fd, .closeFd fd] } := by
          simp only [step, hrun, Bool.true_eq_false, if_false, hfd, callOnRead, mainConfig, hres]
          simp [List.append_assoc]
        rw [heq]
        exact ⟨hrun, (lookupFd_removeFd_ne st.registered fd g hne).trans hg⟩

/-- Witness for amended C7: client 4's send fails with `ConnectionError`
while client 5 stays registered and the loop keeps running. -/
theorem connection_failure_isolation_witness :
    (step mainConfig ⟨[(5, ⟨"p5", 5⟩), (4, ⟨"p4", 4⟩)], true, false, []⟩
        (.read 4 (.ok helloBytes) .connError)).running = true ∧
    lookupFd (step mainConfig ⟨[(5, ⟨"p5", 5⟩), (4, ⟨"p4", 4⟩)], true, false, []⟩
        (.read 4 (.ok helloBytes) .connError)).registered 5 = some ⟨"p5", 5⟩ :=
  connection_failure_isolation ⟨[(5, ⟨"p5", 5⟩), (4, ⟨"p4", 4⟩)], true, false, []⟩
    4 5 ⟨"p5", 5⟩ (.ok helloBytes) .connError rfl (by decide) (by decide) (by decide)

/-- Counterexample to claim C8 as stated: when `sel.select()` fails, the
`with` statement closes the listening socket *before* the `except` clause
logs the error (the log, not the close, is the last action), and
`run_server` returns normally, so the process exits with status 0 — not
with a non-zero indication. -/
theorem fatal_select_error_cex :
    mainExitStatus [.selectRaises] = 0 ∧
    (runMain [.selectRaises]).trace = [.closeListener, .logServerError] ∧
    (runMain [.selectRaises]).running = false ∧
    (runMain [.selectRaises]).listenerClosed = true := by
  decide

/-- Claim C8 as amended: an irrecoverable failure of the polling primitive
propagates out of the loop body; the `with` statement closes the listening
descriptor, then the outer `except` clause logs the error and the loop
stops; `run_server` returns normally and the process exits with status 0. -/
theorem fatal_select_error_teardown (st : LoopState) (hrun : st.running = true) :
    step mainConfig st .selectRaises =
      { st with running := false, listenerClosed := true,
                trace := st.trace ++ [.closeListener, .logServerError] } ∧
    (∀ evs, mainExitStatus evs = 0) := by
  exact ⟨by simp [step, hrun, crash], fun _ => rfl⟩

/-- Witness for amended C8: a `select` failure in the initial state closes
the listener, logs, stops the loop, and the process exit status is 0. -/
theorem fatal_select_error_teardown_witness :
    step mainConfig initState .selectRaises =
      ⟨[], false, true, [.closeListener, .logServerError]⟩ ∧
    mainExitStatus [.selectRaises, .accept 4 ⟨"peer", 50005⟩] = 0 :=
  ⟨((fatal_select_error_teardown initState rfl).1).trans (by decide),
   (fatal_select_error_teardown initState rfl).2 [.selectRaises, .accept 4 ⟨"peer", 50005⟩]⟩

/-- The contribution of one delivered event to the number of successful
accepts of a descriptor. -/
def evAccept (fd : Fd) : Ev → Nat
  | .accept g _ => if g = fd then 1 else 0
  | _ => 0

theorem countAcceptEv_cons (fd : Fd) (e : Ev) (es : List Ev) :
    countAcceptEv fd (e :: es) = evAccept fd e + countAcceptEv fd es := by
  cases e <;> simp [countAcceptEv, evAccept]

/-- One when the descriptor is currently registered, zero otherwise. -/
def regIndicator (fd : Fd) (st : LoopState) : Nat :=
  if (lookupFd st.registered fd).isSome = true then 1 else 0

/-- The per-descriptor bookkeeping invariant of the loop: while a
descriptor is registered it has been registered exactly one more time than
it has been closed, otherwise the two counts agree; and `on_disconnect`
has fired exactly as often as the descriptor has been closed. -/
def regBalanced (fd : Fd) (st : LoopState) : Prop :=
  countAct (isRegisterOf fd) st.trace =
    countAct (isCloseOf fd) st.trace + regIndicator fd st ∧
  countAct (isDisconnectOf fd) st.trace = countAct (isCloseOf fd) st.trace

theorem countAct_teardown_register (fd : Fd) :
    countAct (isRegisterOf fd) [Action.closeListener, Action.logServerError] = 0 := rfl

theorem countAct_teardown_close (fd : Fd) :
    countAct (isCloseOf fd) [Action.closeListener, Action.logServerError] = 0 := rfl

theorem countAct_teardown_disconnect (fd : Fd) :
    countAct (isDisconnectOf fd) [Action.closeListener, Action.logServerError] = 0 := rfl

theorem countAct_acceptActs_register (fd g : Fd) (a : Addr) :
    countAct (isRegisterOf fd) [.registerFd g, .onConnect g a] =
      if g = fd then 1 else 0 := by
  by_cases h : g = fd
  · simp [countAct, List.filter, isRegisterOf, h]
  · have hb : (g == fd) = false := beq_eq_false_iff_ne.mpr h
    simp [countAct, List.filter, isRegisterOf, h, hb]

theorem countAct_acceptActs_register_ne (fd g : Fd) (a : Addr) (h : g ≠ fd) :
    countAct (isRegisterOf fd) [.registerFd g, .onConnect g a] = 0 := by
  have hb : (g == fd) = false := beq_eq_false_iff_ne.mpr h
  simp [countAct, List.filter, isRegisterOf, hb]

theorem countAct_acceptActs_close (fd g : Fd) (a : Addr) :
    countAct (isCloseOf fd) [.registerFd g, .onConnect g a] = 0 := rfl

theorem countAct_acceptActs_disconnect (fd g : Fd) (a : Addr) :
    countAct (isDisconnectOf fd) [.registerFd g, .onConnect g a] = 0 := by
  simp [countAct, List.filter, isDisconnectOf]

theorem countAct_onDisc_register (fd g : Fd) (a : Addr) :
    countAct (isRegisterOf fd) [Action.onDisconnect g a] = 0 := rfl

theorem countAct_onDisc_close (fd g : Fd) (a : Addr) :
    countAct (isCloseOf fd) [Action.onDisconnect g a] = 0 := rfl

theorem countAct_onDisc_disc_self (g : Fd) (a : Addr) :
    countAct (isDisconnectOf g) [Action.onDisconnect g a] = 1 := by
  simp [countAct, List.filter, isDisconnectOf]

theorem countAct_onDisc_disc_ne (fd g : Fd) (a : Addr) (h : g ≠ fd) :
    countAct (isDisconnectOf fd) [Action.onDisconnect g a] = 0 := by
  have hb : (g == fd) = false := beq_eq_false_iff_ne.mpr h
  simp [countAct, List.filter, isDisconnectOf, hb]

theorem countAct_uc_register (fd g : Fd) :
    countAct (isRegisterOf fd) [Action.unregisterFd g, Action.closeFd g] = 0 := rfl

theorem countAct_uc_close_self (g : Fd) :
    countAct (isCloseOf g) [Action.unregisterFd g, Action.closeFd g] = 1 := by
  simp [countAct, List.filter, isCloseOf]

theorem countAct_uc_close_ne (fd g : Fd) (h : g ≠ fd) :
    countAct (isCloseOf fd) [Action.unregisterFd g, Action.closeFd g] = 0 := by
  have hb : (g == fd) = false := beq_eq_false_iff_ne.mpr h
  simp [countAct, List.filter, isCloseOf, hb]

theorem countAct_uc_disc (fd g : Fd) :
    countAct (isDisconnectOf fd) [Action.unregisterFd g, Action.closeFd g] = 0 := rfl

/-- Every step of the loop has one of four shapes: a no-op; a termination
or keep-open step that only appends register/close/disconnect-free
actions; a successful accept that registers a fresh descriptor; or a
disconnect that removes one registered descriptor while appending exactly
one `on_disconnect`, one `unregister` and one `close` for it. -/
theorem step_shape (st : LoopState) (e : Ev) :
    step mainConfig st e = st ∨
    (∃ acts, (∀ fd, countAct (isRegisterOf fd) acts = 0 ∧
        countAct (isCloseOf fd) acts = 0 ∧ countAct (isDisconnectOf fd) acts = 0) ∧
      (step mainConfig st e =
        { st with running := false, listenerClosed := true,
                  trace := st.trace ++ acts ++ [.closeListener, .logServerError] } ∨
       step mainConfig st e = { st with trace := st.trace ++ acts })) ∨
    (∃ g a, lookupFd st.registered g = none ∧ e = .accept g a ∧
      step mainConfig st e =
        { st with registered := (g, a) :: st.registered,
                  trace := st.trace ++ [.registerFd g, .onConnect g a] }) ∨
    (∃ g a acts, lookupFd st.registered g = some a ∧
      (∀ fd, countAct (isRegisterOf fd) acts = 0 ∧
        countAct (isCloseOf fd) acts = 0 ∧ countAct (isDisconnectOf fd) acts = 0) ∧
      step mainConfig st e =
        { st with registered := removeFd st.registered g,
                  trace := st.trace ++ acts ++
                    ([Action.onDisconnect g a] ++ [Action.unregisterFd g, Action.closeFd g]) }) := by
  by_cases hr : st.running = false
  · exact .inl (by simp [step, hr])
  · have hrun : st.running = true := by revert hr; cases st.running <;> simp
    have hznil : ∀ fd : Fd, countAct (isRegisterOf fd) ([] : List Action) = 0 ∧
        countAct (isCloseOf fd) ([] : List Action) = 0 ∧
        countAct (isDisconnectOf fd) ([] : List Action) = 0 :=
      fun _ => ⟨rfl, rfl, rfl⟩
    cases e with
    | selectRaises =>
      refine .inr (.inl ⟨[], hznil, .inl ?_⟩)
      simp [step, hrun, crash]
    | acceptRaises =>
      refine .inr (.inl ⟨[], hznil, .inl ?_⟩)
      simp [step, hrun, crash]
    | accept g a =>
      rcases hf : lookupFd st.registered g with _ | b
      · refine .inr (.inr (.inl ⟨g, a, hf, rfl, ?_⟩))
        simp only [step, hrun, Bool.true_eq_false, if_false, hf, Option.isSome_none,
          Bool.false_eq_true, mainConfig]
        simp [List.append_assoc]
      · refine .inr (.inl ⟨[], hznil, .inl ?_⟩)
        simp [step, hrun, hf, crash]
    | read g r s =>
      rcases hf : lookupFd st.registered g with _ | a
      · exact .inl (by simp [step, hrun, hf])
      · have hz : ∀ fd : Fd, countAct (isRegisterOf fd) (handleActs g r s) = 0 ∧
            countAct (isCloseOf fd) (handleActs g r s) = 0 ∧
            countAct (isDisconnectOf fd) (handleActs g r s) = 0 :=
          fun fd => ⟨countAct_handleActs_register fd g r s,
            countAct_handleActs_close fd g r s, countAct_handleActs_disconnect fd g r s⟩
        cases hres : handle r s with
        | raised =>
          refine .inr (.inl ⟨handleActs g r s, hz, .inl ?_⟩)
          simp only [step, hrun, Bool.true_eq_false, if_false, hf, callOnRead, mainConfig, hres]
          simp [crash]
        | ret keep sd =>
          cases keep with
          | true =>
            refine .inr (.inl ⟨handleActs g r s, hz, .inr ?_⟩)
            simp only [step, hrun, Bool.true_eq_false, if_false, hf, callOnRead, mainConfig, hres]
          | false =>
            refine .inr (.inr (.inr ⟨g, a, handleActs g r s, hf, hz, ?_⟩))
            simp only [step, hrun, Bool.true_eq_false, if_false, hf, callOnRead, mainConfig, hres]
            simp [List.append_assoc]

theorem step_regBalanced (st : LoopState) (e : Ev) (fd : Fd) (hb : regBalanced fd st) :
    regBalanced fd (step mainConfig st e) ∧
    countAct (isRegisterOf fd) (step mainConfig st e).trace ≤
      countAct (isRegisterOf fd) st.trace + evAccept fd e := by
  obtain ⟨hb1, hb2⟩ := hb
  rcases step_shape st e with heq |
    ⟨acts, hz, heq | heq⟩ | ⟨g, a, hnone, hee, heq⟩ | ⟨g, a, acts, hsome, hz, heq⟩
  · rw [heq]
    exact ⟨⟨hb1, hb2⟩, Nat.le_add_right _ _⟩
  · obtain ⟨hz1, hz2, hz3⟩ := hz fd
    rw [heq]
    have hind : regIndicator fd
        { st with running := false, listenerClosed := true,
                  trace := st.trace ++ acts ++ [.closeListener, .logServerError] } =
        regIndicator fd st := rfl
    refine ⟨⟨?_, ?_⟩, ?_⟩ <;>
      simp only [regBalanced, hind, countAct_append, hz1, hz2, hz3,
        countAct_teardown_register, countAct_teardown_close,
        countAct_teardown_disconnect, Nat.add_zero] <;>
      omega
  · obtain ⟨hz1, hz2, hz3⟩ := hz fd
    rw [heq]
    have hind : regIndicator fd { st with trace := st.trace ++ acts } =
        regIndicator fd st := rfl
    refine ⟨⟨?_, ?_⟩, ?_⟩ <;>
      simp only [regBalanced, hind, countAct_append, hz1, hz2, hz3, Nat.add_zero] <;>
      omega
  · subst hee
    rw [heq]
    by_cases hgf : g = fd
    · subst hgf
      have hindOld : regIndicator g st = 0 := by
        simp [regIndicator, hnone]
      have hindNew : regIndicator g
          { st with registered := (g, a) :: st.registered,
                    trace := st.trace ++ [.registerFd g, .onConnect g a] } = 1 := by
        simp [regIndicator, lookupFd]
      rw [hindOld, Nat.add_zero] at hb1
      have hra : countAct (isRegisterOf g) [Action.registerFd g, Action.onConnect g a] = 1 := by
        simp [countAct, List.filter, isRegisterOf]
      have hev : evAccept g (Ev.accept g a) = 1 := by
        simp [evAccept]
      refine ⟨⟨?_, ?_⟩, ?_⟩ <;>
        simp only [hindNew, countAct_append, hra, countAct_acceptActs_close,
          countAct_acceptActs_disconnect, Nat.add_zero, hev] <;>
        omega
    · have hgf2 : (g = fd) = False := by simp [hgf]
      have hindNew : regIndicator fd
          { st with registered := (g, a) :: st.registered,
                    trace := st.trace ++ [.registerFd g, .onConnect g a] } =
          regIndicator fd st := by
        simp [regIndicator, lookupFd, hgf]
      have hra : countAct (isRegisterOf fd) [Action.registerFd g, Action.onConnect g a] = 0 :=
        countAct_acceptActs_register_ne fd g a hgf
      have hev : evAccept fd (Ev.accept g a) = 0 := by
        simp [evAccept, hgf]
      refine ⟨⟨?_, ?_⟩, ?_⟩ <;>
        simp only [hindNew, countAct_append, hra, countAct_acceptActs_close,
          countAct_acceptActs_disconnect, Nat.add_zero, hev] <;>
        omega
  · obtain ⟨hz1, hz2, hz3⟩ := hz fd
    rw [heq]
    by_cases hgf : g = fd
    · subst hgf
      have hindOld : regIndicator g st = 1 := by
        simp [regIndicator, hsome]
      have hindNew : regIndicator g
          { st with registered := removeFd st.registered g,
                    trace := st.trace ++ acts ++
                      ([Action.onDisconnect g a] ++
                        [Action.unregisterFd g, Action.closeFd g]) } = 0 := by
        simp [regIndicator, lookupFd_removeFd_self]
      rw [hindOld] at hb1
      refine ⟨⟨?_, ?_⟩, ?_⟩ <;>
        simp only [hindNew, countAct_append, countAct_onDisc_register,
          countAct_onDisc_close, countAct_onDisc_disc_self, countAct_uc_register,
          countAct_uc_close_self, countAct_uc_disc, hz1, hz2, hz3, Nat.add_zero] <;>
        omega
    · have hgf2 : (g = fd) = False := by simp [hgf]
      have hindNew : regIndicator fd
          { st with registered := removeFd st.registered g,
                    trace := st.trace ++ acts ++
                      ([Action.onDisconnect g a] ++
                        [Action.unregisterFd g, Action.closeFd g]) } =
          regIndicator fd st := by
        have hne : fd ≠ g := fun h => hgf h.symm
        simp [regIndicator, lookupFd_removeFd_ne st.registered g fd hne]
      refine ⟨⟨?_, ?_⟩, ?_⟩ <;>
        simp only [hindNew, countAct_append, countAct_onDisc_register,
          countAct_onDisc_close, countAct_onDisc_disc_ne fd g a hgf,
          countAct_uc_register, countAct_uc_close_ne fd g hgf, countAct_uc_disc,
          hz1, hz2, hz3, Nat.add_zero] <;>
        omega

theorem run_regBalanced (evs : List Ev) : ∀ (st : LoopState) (fd : Fd),
    regBalanced fd st →
    regBalanced fd (run mainConfig st evs) ∧
    countAct (isRegisterOf fd) (run mainConfig st evs).trace ≤
      countAct (isRegisterOf fd) st.trace + countAcceptEv fd evs := by
  induction evs with
  | nil =>
    intro st fd hb
    exact ⟨hb, Nat.le_add_right _ _⟩
  | cons e es ih =>
    intro st fd hb
    obtain ⟨h1, h2⟩ := step_regBalanced st e fd hb
    obtain ⟨h3, h4⟩ := ih (step mainConfig st e) fd h1
    refine ⟨h3, ?_⟩
    rw [countAcceptEv_cons]
    calc countAct (isRegisterOf fd) (run mainConfig (step mainConfig st e) es).trace
        ≤ countAct (isRegisterOf fd) (step mainConfig st e).trace + countAcceptEv fd es := h4
      _ ≤ countAct (isRegisterOf fd) st.trace + evAccept fd e + countAcceptEv fd es :=
          Nat.add_le_add_right h2 _
      _ = countAct (isRegisterOf fd) st.trace + (evAccept fd e + countAcceptEv fd es) :=
          Nat.add_assoc _ _ _

/-- Claim C4: in every reachable state of the `__main__` server, a client
descriptor that the delivered events accept at most once is closed at most
once, only by the disconnect path (every close is preceded by its one
`on_disconnect`, so the two counts are always equal), and once a
descriptor is not registered, a readiness event for it dispatches nothing
and leaves the state unchanged. -/
theorem client_closed_at_most_once (evs : List Ev) (fd : Fd)
    (hacc : countAcceptEv fd evs ≤ 1) :
    countAct (isCloseOf fd) (runMain evs).trace ≤ 1 ∧
    countAct (isDisconnectOf fd) (runMain evs).trace =
      countAct (isCloseOf fd) (runMain evs).trace ∧
    (∀ st r s, lookupFd st.registered fd = none →
      step mainConfig st (.read fd r s) = st) := by
  have hb0 : regBalanced fd initState := by
    refine ⟨?_, ?_⟩ <;> simp [regBalanced, regIndicator, initState, countAct, lookupFd]
  obtain ⟨⟨hbal1, hbal2⟩, hle⟩ := run_regBalanced evs initState fd hb0
  have hinit0 : countAct (isRegisterOf fd) initState.trace = 0 := rfl
  rw [hinit0, Nat.zero_add] at hle
  have hind : regIndicator fd (run mainConfig initState evs) ≤ 1 := by
    unfold regIndicator
    split <;> omega
  refine ⟨by unfold runMain; omega, by unfold runMain; omega, ?_⟩
  intro st r s hnone
  by_cases hr : st.running = false
  · simp [step, hr]
  · have hrun : st.running = true := by revert hr; cases st.running <;> simp
    simp [step, hrun, hnone]

/-- Witness for C4: in the session that accepts descriptor 4 once and then
disconnects it, descriptor 4 is closed once, `on_disconnect` fired exactly
as often as the close happened, and a readiness event for the no longer
registered descriptor is a no-op. -/
theorem client_closed_at_most_once_witness :
    countAct (isCloseOf 4)
      (runMain [.accept 4 ⟨"peer", 50006⟩, .read 4 (.ok []) .ok]).trace ≤ 1 ∧
    countAct (isDisconnectOf 4)
      (runMain [.accept 4 ⟨"peer", 50006⟩, .read 4 (.ok []) .ok]).trace =
      countAct (isCloseOf 4)
        (runMain [.accept 4 ⟨"peer", 50006⟩, .read 4 (.ok []) .ok]).trace ∧
    step mainConfig initState (.read 4 .connError .ok) = initState :=
  have h := client_closed_at_most_once [.accept 4 ⟨"peer", 50006⟩, .read 4 (.ok []) .ok] 4
    (by decide)
  ⟨h.1, h.2.1, h.2.2 initState .connError .ok (by decide)⟩

end Server04
